import Mathlib

/-!
# Picture_App: the image selection and persisted display state of `App.js`

A shallow embedding of `src/App.js` (a React Native component) and the
verification of its specification.

* JavaScript numbers are IEEE 754 binary64 values (`JSNumber`), with the two
  arithmetic operators the component uses (`*` and `/`) rounding to nearest,
  ties to even.
* JavaScript values are the plain data values the component handles
  (`JSValue`): it never stores or receives a function.
* The component state (`useState`), the contents of `AsyncStorage` and the
  observable effects (alerts, console output, collaborator calls) are threaded
  explicitly through an `AppState`.
* The collaborators (`expo-image-picker`, `AsyncStorage`, the text syntax of
  `JSON`, the window dimensions) are the fields of a `Host`.
-/

namespace PictureApp

/-! ## Numbers: IEEE 754 binary64 -/

/-- A JavaScript number. `fin neg m e` is the value `(-1)^neg * m * 2^e`; a
finite double is written with `m < 2^53` and `-1074 ≤ e ≤ 971`, and with
`2^52 ≤ m` unless `e = -1074` (subnormals and the zeros). -/
inductive JSNumber where
  | nan
  | inf (neg : Bool)
  | fin (neg : Bool) (m : Nat) (e : Int)
  deriving DecidableEq, Repr

namespace JSNumber

/-- Floor of the binary logarithm, by halving at most `fuel` times. -/
def log2Fuel : Nat → Nat → Nat
  | 0, _ => 0
  | fuel + 1, n => if n < 2 then 0 else log2Fuel fuel (n / 2) + 1

/-- Floor of the binary logarithm of a positive natural number. -/
def log2 (n : Nat) : Nat := log2Fuel n n

/-- Quotient, remainder and divisor of `num * 2^k / den`, in natural numbers. -/
def scaledQuotRem (num den : Nat) (k : Int) : Nat × Nat × Nat :=
  let n := if 0 ≤ k then num * 2 ^ k.toNat else num
  let d := if 0 ≤ k then den else den * 2 ^ (-k).toNat
  (n / d, n % d, d)

/-- Round the quotient `q` with remainder `r` of a division by `d` to the
nearest integer, a tie going to the even one. -/
def roundHalfEven (q r d : Nat) : Nat :=
  if 2 * r < d then q
  else if d < 2 * r then q + 1
  else q + q % 2

/-- The binary64 value nearest to `(-1)^neg * (num / den) * 2^exp` for
`0 < den` (round to nearest, ties to even, gradual underflow, overflow to
infinity). -/
def round (neg : Bool) (num den : Nat) (exp : Int) : JSNumber :=
  if num = 0 then fin neg 0 (-1074)
  else
    let e0 : Int := (log2 num : Int) - (log2 den : Int) + exp - 52
    let q0 := (scaledQuotRem num den (exp - e0)).1
    let e1 : Int := if q0 < 2 ^ 52 then e0 - 1 else e0
    let e : Int := max e1 (-1074)
    let qrd := scaledQuotRem num den (exp - e)
    let m := roundHalfEven qrd.1 qrd.2.1 qrd.2.2
    if m = 0 then fin neg 0 (-1074)
    else if m = 2 ^ 53 then (if 971 < e + 1 then inf neg else fin neg (2 ^ 52) (e + 1))
    else if 971 < e then inf neg
    else fin neg m e

/-- The number denoted by a natural-number literal. -/
def ofNat (n : Nat) : JSNumber := round false n 1 0

/-- The number denoted by the literal `1.1`. -/
def onePointOne : JSNumber := round false 11 10 0

/-- The operator `*` on numbers. -/
def mul : JSNumber → JSNumber → JSNumber
  | nan, _ => nan
  | _, nan => nan
  | inf s, inf t => inf (xor s t)
  | inf s, fin t m _ => if m = 0 then nan else inf (xor s t)
  | fin s m _, inf t => if m = 0 then nan else inf (xor s t)
  | fin s m e, fin t n f => round (xor s t) (m * n) 1 (e + f)

/-- The operator `/` on numbers. -/
def div : JSNumber → JSNumber → JSNumber
  | nan, _ => nan
  | _, nan => nan
  | inf _, inf _ => nan
  | inf s, fin t _ _ => inf (xor s t)
  | fin s _ _, inf t => fin (xor s t) 0 (-1074)
  | fin s m e, fin t n f =>
    if n = 0 then (if m = 0 then nan else inf (xor s t))
    else round (xor s t) m n (e - f)

/-- Whether the number is neither `NaN` nor an infinity. -/
def isFinite : JSNumber → Bool
  | fin _ _ _ => true
  | _ => false

/-- Whether the number is a zero (`+0` or `-0`). -/
def isZero : JSNumber → Bool
  | fin _ 0 _ => true
  | _ => false

/-- Whether `0 < x`. -/
def isPositive : JSNumber → Bool
  | fin false (_ + 1) _ => true
  | inf false => true
  | _ => false

/-- The rational value of a finite number. -/
def toRat : JSNumber → Option ℚ
  | fin neg m e => some ((if neg then -1 else 1) * (m : ℚ) * (2 : ℚ) ^ e)
  | _ => none

end JSNumber

/-! ## Values -/

/-- The JavaScript values the component handles: primitives, arrays and plain
objects (an association list of own properties, the first entry of a key
being its value). -/
inductive JSValue where
  | undefined
  | null
  | bool (b : Bool)
  | number (n : JSNumber)
  | string (s : String)
  | array (items : List JSValue)
  | object (props : List (String × JSValue))

/-- An exception value. -/
inductive JSError where
  | typeError
  | syntaxError
  | rejected (reason : String)
  deriving DecidableEq, Repr

/-- The conversion `ToBoolean`. -/
def truthy : JSValue → Bool
  | .undefined => false
  | .null => false
  | .bool b => b
  | .number n => !(n.isZero || n == JSNumber.nan)
  | .string s => s != ""
  | .array _ => true
  | .object _ => true

/-- The test `v === false`. -/
def strictEqFalse : JSValue → Bool
  | .bool false => true
  | _ => false

/-- The first value stored under `key` in a property list. -/
def lookupProp (key : String) : List (String × JSValue) → JSValue
  | [] => .undefined
  | (k, v) :: rest => if k = key then v else lookupProp key rest

/-- The property read `v.key`, for a `key` that is not a member of a built-in
prototype (`granted`, `canceled`, `assets`, `uri`, `width`, `height`,
`dimensions`): a `TypeError` on `undefined` and `null`, the own property of an
object, `undefined` otherwise. -/
def getProp (v : JSValue) (key : String) : Except JSError JSValue :=
  match v with
  | .undefined => .error .typeError
  | .null => .error .typeError
  | .object props => .ok (lookupProp key props)
  | _ => .ok .undefined

/-- The indexed read `v[0]`: the first element of an array, the property `0`
of an object, the first character of a string. -/
def getFirst (v : JSValue) : Except JSError JSValue :=
  match v with
  | .undefined => .error .typeError
  | .null => .error .typeError
  | .array [] => .ok .undefined
  | .array (x :: _) => .ok x
  | .object props => .ok (lookupProp "0" props)
  | .string s =>
    match s.data with
    | [] => .ok .undefined
    | c :: _ => .ok (.string (String.mk [c]))
  | _ => .ok .undefined

/-- The code points `String.prototype.trim` removes: `WhiteSpace` and
`LineTerminator` of ECMA-262. -/
def isJSWhitespace (c : Char) : Bool :=
  let n := c.toNat
  n = 0x09 || n = 0x0A || n = 0x0B || n = 0x0C || n = 0x0D || n = 0x20 || n = 0xA0
    || n = 0x1680 || (0x2000 ≤ n && n ≤ 0x200A) || n = 0x2028 || n = 0x2029
    || n = 0x202F || n = 0x205F || n = 0x3000 || n = 0xFEFF

/-- The method `String.prototype.trim`. -/
def jsTrim (s : String) : String :=
  String.mk ((s.data.dropWhile isJSWhitespace).reverse.dropWhile isJSWhitespace).reverse

/-- The call `v.trim()`: only a string has the method. -/
def callTrim : JSValue → Except JSError String
  | .string s => .ok (jsTrim s)
  | _ => .error .typeError

/-! ## JSON -/

/-- A JSON document: what a JSON text denotes. -/
inductive Json where
  | null
  | bool (b : Bool)
  | num (n : JSNumber)
  | str (s : String)
  | arr (items : List Json)
  | obj (members : List (String × Json))

/-- The JSON document of a number: a non-finite number is written `null` and
`-0` is written `0`. -/
def Json.ofNumber : JSNumber → Json
  | .fin _ 0 e => .num (.fin false 0 e)
  | .fin neg (m + 1) e => .num (.fin neg (m + 1) e)
  | _ => .null

mutual
/-- The document `JSON.stringify` writes for a value (`SerializeJSONProperty`);
`none` where it yields `undefined`. -/
def JSValue.serialize : JSValue → Option Json
  | .undefined => none
  | .null => some .null
  | .bool b => some (.bool b)
  | .number n => some (Json.ofNumber n)
  | .string s => some (.str s)
  | .array items => some (.arr (serializeItems items))
  | .object props => some (.obj (serializeProps props))
/-- The elements of an array: `undefined` is written `null`. -/
def serializeItems : List JSValue → List Json
  | [] => []
  | x :: xs => (match x.serialize with | some j => j | none => .null) :: serializeItems xs
/-- The properties of an object: a property whose value is `undefined` is
left out. -/
def serializeProps : List (String × JSValue) → List (String × Json)
  | [] => []
  | (k, v) :: rest =>
    match v.serialize with
    | some j => (k, j) :: serializeProps rest
    | none => serializeProps rest
end

/-- The effect of `CreateDataProperty`: replace the value of an existing key,
or add the key at the end. -/
def setProp (k : String) (v : JSValue) : List (String × JSValue) → List (String × JSValue)
  | [] => [(k, v)]
  | (k', v') :: rest => if k' = k then (k, v) :: rest else (k', v') :: setProp k v rest

mutual
/-- The value `JSON.parse` builds from a document. -/
def Json.revive : Json → JSValue
  | .null => .null
  | .bool b => .bool b
  | .num n => .number n
  | .str s => .string s
  | .arr items => .array (reviveItems items)
  | .obj members => .object (reviveMembers [] members)
/-- The elements of an array. -/
def reviveItems : List Json → List JSValue
  | [] => []
  | x :: xs => x.revive :: reviveItems xs
/-- The members of an object, in order; a repeated key keeps its last value. -/
def reviveMembers : List (String × JSValue) → List (String × Json) → List (String × JSValue)
  | acc, [] => acc
  | acc, (k, v) :: rest => reviveMembers (setProp k v.revive acc) rest
end

/-! ## Collaborators, state and effects -/

/-- The options object passed to `ImagePicker.launchImageLibraryAsync`
(`mediaTypes` is always `MediaTypeOptions.Images`). -/
structure PickerOptions where
  allowsEditing : Bool
  aspect : Option (JSNumber × JSNumber)
  quality : Nat
  deriving DecidableEq, Repr

/-- The environment of the component: the window dimensions, the answers of
the collaborators and the library functions whose code is not part of the
application. -/
structure Host where
  /-- The value `Dimensions.get('window').width`. -/
  screenWidth : JSNumber
  /-- The value `Dimensions.get('window').height`. -/
  screenHeight : JSNumber
  /-- The outcome of `ImagePicker.requestMediaLibraryPermissionsAsync()`. -/
  requestMediaLibraryPermissionsAsync : Except JSError JSValue
  /-- The outcome of `ImagePicker.launchImageLibraryAsync(options)`. -/
  launchImageLibraryAsync : PickerOptions → Except JSError JSValue
  /-- The rejection of `AsyncStorage.getItem(key)`, if it fails. -/
  getItemError : String → Option JSError
  /-- The rejection of `AsyncStorage.setItem(key, value)`, if it fails; a
  rejected write leaves the storage as it was. -/
  setItemError : String → String → Option JSError
  /-- The text `JSON.stringify` writes for a document. -/
  jsonText : Json → String
  /-- The document `JSON.parse` reads from a text; `none` is a `SyntaxError`. -/
  jsonRead : String → Option Json
  /-- The conversion `ToNumber` of a string, an array or an object. -/
  toNumberOther : JSValue → JSNumber

/-- An observable effect of the component. -/
inductive Event where
  | permissionRequest
  | pickerLaunch (options : PickerOptions)
  | alert (message : String)
  | consoleLog (message : String) (error : JSError)
  | storageGet (key : String)
  | storageSet (key : String) (value : String)
  deriving DecidableEq, Repr

/-- The state of the application: the two `useState` cells, the contents of
`AsyncStorage`, and the effects so far, oldest first. -/
structure AppState where
  selectedImage : JSValue
  imageDimensions : JSValue
  storage : String → Option String
  events : List Event

/-- Record an effect. -/
def AppState.emit (s : AppState) (ev : Event) : AppState :=
  { s with events := s.events ++ [ev] }

/-- The state in which the component mounts: `useState(null)` twice, over the
given storage. -/
def AppState.mount (storage : String → Option String) : AppState :=
  { selectedImage := .null, imageDimensions := .null, storage := storage, events := [] }

/-- The storage key `'imageData'`. -/
def storageKey : String := "imageData"

/-- The conversion `ToNumber`. -/
def toNumber (h : Host) : JSValue → JSNumber
  | .undefined => .nan
  | .null => .fin false 0 (-1074)
  | .bool b => if b then JSNumber.ofNat 1 else .fin false 0 (-1074)
  | .number n => n
  | v => h.toNumberOther v

/-- The text `JSON.stringify` returns for a plain object. -/
def jsonStringifyObject (h : Host) (props : List (String × JSValue)) : String :=
  h.jsonText (.obj (serializeProps props))

/-- The value `JSON.parse` returns, or the `SyntaxError` it throws. -/
def jsonParse (h : Host) (text : String) : Except JSError JSValue :=
  match h.jsonRead text with
  | none => .error .syntaxError
  | some doc => .ok doc.revive

/-! ## The component -/

/-- The options of the picker call, lines 42-47. -/
def pickerOptions (h : Host) (isFullScreen : Bool) : PickerOptions :=
  { allowsEditing := isFullScreen
    aspect := if isFullScreen then some (h.screenWidth, h.screenHeight) else none
    quality := 1 }

/-- The object `{ width: imageAsset.width, height: imageAsset.height*1.1 }` of
line 68. -/
def displayDimensions (h : Host) (width height : JSValue) : JSValue :=
  .object [("width", width), ("height", .number ((toNumber h height).mul JSNumber.onePointOne))]

/-- The object `{ uri: imageAsset.uri, dimensions }` of line 70. -/
def persistedRecord (uri dimensions : JSValue) : List (String × JSValue) :=
  [("uri", uri), ("dimensions", dimensions)]

/-- Lines 66-70 of `openGallery`: commit the asset to the state, then write
the record. The result is the state reached and the exception thrown, if any. -/
def commitAsset (h : Host) (imageAsset uri : JSValue) (s : AppState) :
    AppState × Option JSError :=
  let s1 := { s with selectedImage := uri }
  match getProp imageAsset "width" with
  | .error e => (s1, some e)
  | .ok width =>
    match getProp imageAsset "height" with
    | .error e => (s1, some e)
    | .ok height =>
      let dimensions := displayDimensions h width height
      let s2 := { s1 with imageDimensions := dimensions }
      let text := jsonStringifyObject h (persistedRecord uri dimensions)
      let s3 := s2.emit (.storageSet storageKey text)
      match h.setItemError storageKey text with
      | some e => (s3, some e)
      | none =>
        ({ s3 with storage := fun k => if k = storageKey then some text else s3.storage k }, none)

/-- Lines 54-70 of `openGallery`: validate the first asset of the result. -/
def handleAsset (h : Host) (imageAsset : JSValue) (s : AppState) :
    AppState × Option JSError :=
  if !truthy imageAsset then
    (s.emit (.alert "Image format not valid. Please try again."), none)
  else
    match getProp imageAsset "uri" with
    | .error e => (s, some e)
    | .ok uri =>
      if !truthy uri then
        (s.emit (.alert "Image format not valid. Please try again."), none)
      else
        match callTrim uri with
        | .error e => (s, some e)
        | .ok trimmed =>
          if trimmed = "" then
            (s.emit (.alert "Image URI is empty. Please try again."), none)
          else commitAsset h imageAsset uri s

/-- Lines 49-70 of `openGallery`: the result of the picker. -/
def handleResult (h : Host) (result : JSValue) (s : AppState) :
    AppState × Option JSError :=
  match getProp result "canceled" with
  | .error e => (s, some e)
  | .ok canceled =>
    if truthy canceled then (s, none)
    else
      match getProp result "assets" with
      | .error e => (s, some e)
      | .ok assets =>
        if !truthy assets then handleAsset h assets s
        else
          match getFirst assets with
          | .error e => (s, some e)
          | .ok imageAsset => handleAsset h imageAsset s

/-- The `try` block of `openGallery`, lines 36-70. -/
def openGalleryTry (h : Host) (isFullScreen : Bool) (s : AppState) :
    AppState × Option JSError :=
  let s1 := s.emit .permissionRequest
  match h.requestMediaLibraryPermissionsAsync with
  | .error e => (s1, some e)
  | .ok permissionResult =>
    match getProp permissionResult "granted" with
    | .error e => (s1, some e)
    | .ok granted =>
      if strictEqFalse granted then
        (s1.emit (.alert "Permission to access the gallery is required!"), none)
      else
        let options := pickerOptions h isFullScreen
        let s2 := s1.emit (.pickerLaunch options)
        match h.launchImageLibraryAsync options with
        | .error e => (s2, some e)
        | .ok result => handleResult h result s2

/-- The function `openGallery`, lines 34-75: the `try` block, and the `catch`
clause that logs and alerts. -/
def openGallery (h : Host) (isFullScreen : Bool) (s : AppState) : AppState :=
  match openGalleryTry h isFullScreen s with
  | (s', none) => s'
  | (s', some e) =>
    (s'.emit (.consoleLog "Error picking image:" e)).emit
      (.alert "An unidentified error occurred. Please try again.")

/-- The `try` block of `loadImage`, lines 17-24. `openGallery()` is called
with its default argument `isFullScreen = true`. -/
def loadImageTry (h : Host) (s : AppState) : AppState × Option JSError :=
  let s1 := s.emit (.storageGet storageKey)
  match h.getItemError storageKey with
  | some e => (s1, some e)
  | none =>
    match s1.storage storageKey with
    | none => (openGallery h true s1, none)
    | some savedData =>
      if savedData = "" then (openGallery h true s1, none)
      else
        match jsonParse h savedData with
        | .error e => (s1, some e)
        | .ok parsed =>
          match getProp parsed "uri" with
          | .error e => (s1, some e)
          | .ok uri =>
            match getProp parsed "dimensions" with
            | .error e => (s1, some e)
            | .ok dimensions =>
              ({ s1 with selectedImage := uri, imageDimensions := dimensions }, none)

/-- The function `loadImage`, lines 15-28, run once when the component mounts. -/
def loadImage (h : Host) (s : AppState) : AppState :=
  match loadImageTry h s with
  | (s', none) => s'
  | (s', some e) => s'.emit (.consoleLog "Failed to load the image:" e)

/-- The style object `calculateAspectRatio` returns. -/
structure Geometry where
  width : JSNumber
  height : JSNumber
  deriving DecidableEq, Repr

/-- The function `calculateAspectRatio`, lines 94-103. -/
def calculateAspectRatio (h : Host) (s : AppState) : Except JSError Geometry :=
  if truthy s.imageDimensions then
    match getProp s.imageDimensions "width" with
    | .error e => .error e
    | .ok width =>
      match getProp s.imageDimensions "height" with
      | .error e => .error e
      | .ok height =>
        let ratio := (toNumber h width).div (toNumber h height)
        .ok { width := h.screenWidth, height := h.screenWidth.div ratio }
  else
    .ok { width := h.screenWidth, height := h.screenHeight.mul JSNumber.onePointOne }

/-! ## Sample collaborators and states -/

/-- An asset as the picker reports it. -/
def mkAsset (uri : String) (width height : JSNumber) : JSValue :=
  .object [("uri", .string uri), ("width", .number width), ("height", .number height)]

/-- A picker result that was not canceled. -/
def mkPicked (assets : List JSValue) : JSValue :=
  .object [("canceled", .bool false), ("assets", .array assets)]

/-- A host with a window of 400 by 800 that grants the permission, whose
picker answers `result`, whose storage never fails and whose JSON syntax
consists of the one text `text`, denoting `doc`. -/
def hostAnswering (result : JSValue) (text : String) (doc : Json) : Host :=
  { screenWidth := JSNumber.ofNat 400
    screenHeight := JSNumber.ofNat 800
    requestMediaLibraryPermissionsAsync := .ok (.object [("granted", .bool true)])
    launchImageLibraryAsync := fun _ => .ok result
    getItemError := fun _ => none
    setItemError := fun _ _ => none
    jsonText := fun _ => text
    jsonRead := fun t => if t = text then some doc else none
    toNumberOther := fun _ => .nan }

/-- The JSON document of the record `{ uri, dimensions: { width, height } }`. -/
def recordDoc (uri : String) (width height : JSNumber) : Json :=
  .obj [("uri", .str uri),
    ("dimensions", .obj [("width", Json.ofNumber width), ("height", Json.ofNumber height)])]

/-- The text of the record of a picture of 1080 by 1920 (`1920*1.1` is `2112`). -/
def sampleText : String :=
  "\x7b\"uri\":\"file:///a.png\",\"dimensions\":\x7b\"width\":1080,\"height\":2112\x7d\x7d"

/-- A host whose picker answers with a picture of 1080 by 1920. -/
def sampleHost : Host :=
  hostAnswering (mkPicked [mkAsset "file:///a.png" (JSNumber.ofNat 1080) (JSNumber.ofNat 1920)])
    sampleText
    (recordDoc "file:///a.png" (JSNumber.ofNat 1080)
      ((JSNumber.ofNat 1920).mul JSNumber.onePointOne))

/-- A host whose picker is canceled by the user. -/
def canceledHost : Host :=
  hostAnswering (.object [("canceled", .bool true), ("assets", .null)]) sampleText .null

/-- A host whose user denies the access to the gallery. -/
def deniedHost : Host :=
  { sampleHost with
    requestMediaLibraryPermissionsAsync := .ok (.object [("granted", .bool false)]) }

/-- A state in which a picture of 1080 by 1920 is shown and stored. -/
def savedState : AppState :=
  { selectedImage := .string "file:///a.png"
    imageDimensions :=
      .object [("width", .number (JSNumber.ofNat 1080)),
        ("height", .number ((JSNumber.ofNat 1920).mul JSNumber.onePointOne))]
    storage := fun k => if k = storageKey then some sampleText else none
    events := [] }

/-- A host whose storage rejects every write. -/
def failingWriteHost : Host :=
  { sampleHost with setItemError := fun _ _ => some (.rejected "write failed") }

/-- A host whose picker answers with an asset whose `uri` is three spaces. -/
def blankUriHost : Host :=
  hostAnswering (mkPicked [mkAsset "   " (JSNumber.ofNat 1080) (JSNumber.ofNat 1920)])
    sampleText .null

/-- A host whose picker answers with an empty list of assets. -/
def noAssetHost : Host :=
  hostAnswering (mkPicked []) sampleText .null

/-- A host whose permission request throws. -/
def permissionThrowsHost : Host :=
  { sampleHost with
    requestMediaLibraryPermissionsAsync := .error (.rejected "permission service down") }

/-- A host whose picker throws. -/
def pickerThrowsHost : Host :=
  { sampleHost with launchImageLibraryAsync := fun _ => .error (.rejected "picker crashed") }

/-- The largest finite double, `Number.MAX_VALUE`. -/
def maxValue : JSNumber := .fin false (2 ^ 53 - 1) 971

/-- The text of the record of a picture whose height exceeds the doubles. -/
def overflowText : String :=
  "\x7b\"uri\":\"file:///a.png\",\"dimensions\":\x7b\"width\":1080,\"height\":null\x7d\x7d"

/-- A host whose picker answers with a picture of 1080 by `Number.MAX_VALUE`. -/
def overflowHost : Host :=
  hostAnswering (mkPicked [mkAsset "file:///a.png" (JSNumber.ofNat 1080) maxValue])
    overflowText
    (recordDoc "file:///a.png" (JSNumber.ofNat 1080) (maxValue.mul JSNumber.onePointOne))

/-- A state in which the empty string is stored under `'imageData'`. -/
def emptyStringStored : AppState :=
  AppState.mount fun k => if k = storageKey then some "" else none

/-- A state in which a text that is not JSON is stored under `'imageData'`. -/
def corruptStored : AppState :=
  AppState.mount fun k => if k = storageKey then some "not json" else none

/-- The state in which no picture was ever chosen. -/
def emptyState : AppState := AppState.mount fun _ => none

/-- A state whose dimensions have the height `0`. -/
def zeroHeightState : AppState :=
  { emptyState with
    selectedImage := .string "file:///a.png"
    imageDimensions :=
      .object [("width", .number (JSNumber.ofNat 1080)), ("height", .number (JSNumber.ofNat 0))] }

/-- A state whose dimensions are 1080 by 1920. -/
def portraitState : AppState :=
  { emptyState with
    selectedImage := .string "file:///a.png"
    imageDimensions :=
      .object [("width", .number (JSNumber.ofNat 1080)),
        ("height", .number (JSNumber.ofNat 1920))] }

/-! ## Auxiliary facts -/

theorem jsTrim_empty : jsTrim "" = "" := by
  simp [jsTrim]

theorem jsTrim_of_whitespace (u : String) (hws : ∀ c ∈ u.data, isJSWhitespace c = true) :
    jsTrim u = "" := by
  have h1 : u.data.dropWhile isJSWhitespace = [] := by
    rw [List.dropWhile_eq_nil_iff]
    exact hws
  simp [jsTrim, h1]

theorem truthy_of_jsTrim_ne (u : String) (hu : jsTrim u ≠ "") : truthy (.string u) = true := by
  have : u ≠ "" := by
    intro h
    exact hu (h ▸ jsTrim_empty)
  simp [truthy, this]

theorem truthy_of_getProp_string (v : JSValue) (key u : String)
    (hv : getProp v key = .ok (.string u)) : truthy v = true := by
  cases v <;> simp [getProp] at hv
  simp [truthy]

theorem round_sign (neg : Bool) (num den : Nat) (exp : Int) :
    JSNumber.round neg num den exp = .inf neg
      ∨ ∃ m e, JSNumber.round neg num den exp = .fin neg m e := by
  dsimp only [JSNumber.round]
  split_ifs <;> simp

theorem mul_onePointOne_of_positive (x : JSNumber) (hpos : x.isPositive = true)
    (hfin : (x.mul JSNumber.onePointOne).isFinite = true) :
    ∃ m e, x.mul JSNumber.onePointOne = .fin false m e := by
  have hlit : JSNumber.onePointOne = .fin false 4953959590107546 (-52) := by decide
  rw [hlit] at hfin ⊢
  cases x with
  | nan => simp [JSNumber.isPositive] at hpos
  | inf r => simp [JSNumber.mul, JSNumber.isFinite] at hfin
  | fin r m e =>
    cases r with
    | true => simp [JSNumber.isPositive] at hpos
    | false =>
      rcases round_sign false (m * 4953959590107546) 1 (e + -52) with hr | ⟨m', e', hr⟩
      · simp [JSNumber.mul, hr, JSNumber.isFinite] at hfin
      · exact ⟨m', e', by simpa [JSNumber.mul] using hr⟩

theorem ofNumber_fin_false (m : Nat) (e : Int) :
    Json.ofNumber (.fin false m e) = .num (.fin false m e) := by
  cases m <;> rfl

theorem ofNumber_inf (neg : Bool) : Json.ofNumber (.inf neg) = .null := rfl

theorem ofNumber_of_positive_finite (x : JSNumber) (hpos : x.isPositive = true)
    (hfin : x.isFinite = true) : Json.ofNumber x = .num x := by
  cases x with
  | nan => simp [JSNumber.isPositive] at hpos
  | inf r => simp [JSNumber.isFinite] at hfin
  | fin r m e =>
    cases r with
    | true => simp [JSNumber.isPositive] at hpos
    | false => exact ofNumber_fin_false m e

/-- The record `openGallery` writes denotes the document `recordDoc`. -/
theorem jsonStringifyObject_record (h : Host) (uri : String) (w ht : JSNumber) :
    jsonStringifyObject h (persistedRecord (.string uri)
        (.object [("width", .number w), ("height", .number ht)]))
      = h.jsonText (recordDoc uri w ht) := by
  simp [jsonStringifyObject, persistedRecord, serializeProps, JSValue.serialize, recordDoc]

/-- Reading back the document of a record with two numbers gives the record. -/
theorem revive_recordDoc (uri : String) (w ht : JSNumber)
    (hw : Json.ofNumber w = .num w) (hht : Json.ofNumber ht = .num ht) :
    (recordDoc uri w ht).revive
      = .object [("uri", .string uri),
          ("dimensions", .object [("width", .number w), ("height", .number ht)])] := by
  simp [recordDoc, hw, hht, Json.revive, reviveMembers, setProp]

/-! ## Selecting an image -/

/-- C1, as stated, fails: a picked asset of width 1080 and height
`Number.MAX_VALUE` has a non-blank `uri` and a positive width and height and
is written successfully, but `height*1.1` is `Infinity`: the in-memory height
is `Infinity` while the record `JSON.stringify` persists has the height
`null`, so the persisted record is not equal to the in-memory state. -/
theorem openGallery_overflow_persists_null :
    maxValue.isPositive = true
    ∧ (JSNumber.ofNat 1080).isPositive = true
    ∧ jsTrim "file:///a.png" ≠ ""
    ∧ (openGallery overflowHost true emptyState).selectedImage = .string "file:///a.png"
    ∧ (openGallery overflowHost true emptyState).imageDimensions
        = .object [("width", .number (JSNumber.ofNat 1080)), ("height", .number (.inf false))]
    ∧ (openGallery overflowHost true emptyState).storage storageKey = some overflowText
    ∧ overflowText = jsonStringifyObject overflowHost
        (persistedRecord (openGallery overflowHost true emptyState).selectedImage
          (openGallery overflowHost true emptyState).imageDimensions)
    ∧ serializeProps
          (persistedRecord (openGallery overflowHost true emptyState).selectedImage
            (openGallery overflowHost true emptyState).imageDimensions)
        = [("uri", .str "file:///a.png"),
            ("dimensions", .obj [("width", .num (JSNumber.ofNat 1080)), ("height", .null)])]
    ∧ (Json.obj [("uri", .str "file:///a.png"),
          ("dimensions", .obj [("width", .num (JSNumber.ofNat 1080)),
            ("height", .null)])]).revive
        ≠ .object (persistedRecord (openGallery overflowHost true emptyState).selectedImage
            (openGallery overflowHost true emptyState).imageDimensions) := by
  have hmul : maxValue.mul JSNumber.onePointOne = .inf false := by
    set_option maxRecDepth 4000 in decide
  have h1080 : JSNumber.ofNat 1080 = .fin false 4749890231992320 (-42) := by decide
  have hblank : jsTrim "file:///a.png" ≠ "" := by decide
  have hsaved : openGallery overflowHost true emptyState =
      { selectedImage := .string "file:///a.png"
        imageDimensions :=
          .object [("width", .number (JSNumber.ofNat 1080)), ("height", .number (.inf false))]
        storage := fun k => if k = storageKey then some overflowText else none
        events := [.permissionRequest, .pickerLaunch (pickerOptions overflowHost true),
          .storageSet storageKey overflowText] } := by
    simp [openGallery, openGalleryTry, overflowHost, hostAnswering, getProp, lookupProp,
      strictEqFalse, handleResult, mkPicked, mkAsset, truthy, getFirst, handleAsset, callTrim,
      hblank, commitAsset, displayDimensions, toNumber, hmul, jsonStringifyObject,
      AppState.emit, emptyState, AppState.mount]
  refine ⟨by decide, by decide, hblank, ?_, ?_, ?_, ?_, ?_, ?_⟩
  · rw [hsaved]
  · rw [hsaved]
  · rw [hsaved]
    simp
  · rw [hsaved]
    simp [jsonStringifyObject, overflowHost, hostAnswering]
  · rw [hsaved]
    simp [persistedRecord, serializeProps, JSValue.serialize, h1080, ofNumber_fin_false,
      ofNumber_inf]
  · rw [hsaved]
    simp [persistedRecord, Json.revive, reviveMembers, setProp]

/-- C1, amended. When the permission is granted, the picker result is not
canceled and has a first asset with a non-blank `uri`, a positive finite
`width` and a positive `height` whose product `height*1.1` is finite, and the
storage write does not fail, `openGallery`, in either mode, ends with
`selectedImage = uri` and `imageDimensions = { width, height: height*1.1 }`,
and the text stored under `'imageData'` is the JSON text of the document
`{ uri, dimensions: { width, height: height*1.1 } }` with these very numbers,
a document whose value is the in-memory pair. -/
theorem openGallery_commits_picked_asset (h : Host) (isFullScreen : Bool) (s : AppState)
    (permissionResult granted result canceled asset : JSValue) (others : List JSValue)
    (uri : String) (w ht : JSNumber)
    (hperm : h.requestMediaLibraryPermissionsAsync = .ok permissionResult)
    (hgranted : getProp permissionResult "granted" = .ok granted)
    (hallowed : strictEqFalse granted = false)
    (hpick : h.launchImageLibraryAsync (pickerOptions h isFullScreen) = .ok result)
    (hcanceled : getProp result "canceled" = .ok canceled)
    (hnot : truthy canceled = false)
    (hassets : getProp result "assets" = .ok (.array (asset :: others)))
    (huri : getProp asset "uri" = .ok (.string uri))
    (hblank : jsTrim uri ≠ "")
    (hwidth : getProp asset "width" = .ok (.number w))
    (hheight : getProp asset "height" = .ok (.number ht))
    (hwpos : w.isPositive = true) (hwfin : w.isFinite = true)
    (hhpos : ht.isPositive = true)
    (hhfin : (ht.mul JSNumber.onePointOne).isFinite = true)
    (hwrite : h.setItemError storageKey
      (h.jsonText (.obj [("uri", .str uri),
        ("dimensions", .obj [("width", .num w),
          ("height", .num (ht.mul JSNumber.onePointOne))])])) = none) :
    (openGallery h isFullScreen s).selectedImage = .string uri
    ∧ (openGallery h isFullScreen s).imageDimensions
        = .object [("width", .number w), ("height", .number (ht.mul JSNumber.onePointOne))]
    ∧ (openGallery h isFullScreen s).storage storageKey
        = some (h.jsonText (.obj [("uri", .str uri),
            ("dimensions", .obj [("width", .num w),
              ("height", .num (ht.mul JSNumber.onePointOne))])]))
    ∧ (Json.obj [("uri", .str uri),
          ("dimensions", .obj [("width", .num w),
            ("height", .num (ht.mul JSNumber.onePointOne))])]).revive
        = .object (persistedRecord (openGallery h isFullScreen s).selectedImage
            (openGallery h isFullScreen s).imageDimensions) := by
  have hasset : truthy asset = true := truthy_of_getProp_string asset "uri" uri huri
  have hu : truthy (.string uri) = true := truthy_of_jsTrim_ne uri hblank
  have harr : truthy (.array (asset :: others)) = true := rfl
  have hw : Json.ofNumber w = .num w := ofNumber_of_positive_finite w hwpos hwfin
  obtain ⟨m, e, hprod⟩ := mul_onePointOne_of_positive ht hhpos hhfin
  have hht : Json.ofNumber (ht.mul JSNumber.onePointOne) = .num (ht.mul JSNumber.onePointOne) := by
    rw [hprod]
    exact ofNumber_fin_false m e
  have hdoc : recordDoc uri w (ht.mul JSNumber.onePointOne)
      = .obj [("uri", .str uri),
          ("dimensions", .obj [("width", .num w),
            ("height", .num (ht.mul JSNumber.onePointOne))])] := by
    simp [recordDoc, hw, hht]
  have htext := jsonStringifyObject_record h uri w (ht.mul JSNumber.onePointOne)
  rw [hdoc] at htext
  have hrev := revive_recordDoc uri w (ht.mul JSNumber.onePointOne) hw hht
  rw [hdoc] at hrev
  have hstate : openGallery h isFullScreen s =
      { selectedImage := .string uri
        imageDimensions :=
          .object [("width", .number w), ("height", .number (ht.mul JSNumber.onePointOne))]
        storage := fun k =>
          if k = storageKey then
            some (h.jsonText (.obj [("uri", .str uri),
              ("dimensions", .obj [("width", .num w),
                ("height", .num (ht.mul JSNumber.onePointOne))])]))
          else s.storage k
        events := s.events ++ [.permissionRequest, .pickerLaunch (pickerOptions h isFullScreen),
          .storageSet storageKey (h.jsonText (.obj [("uri", .str uri),
              ("dimensions", .obj [("width", .num w),
                ("height", .num (ht.mul JSNumber.onePointOne))])]))] } := by
    simp [openGallery, openGalleryTry, hperm, hgranted, hallowed, hpick, handleResult,
      hcanceled, hnot, hassets, harr, getFirst, handleAsset, hasset, huri, hu, callTrim,
      hblank, commitAsset, hwidth, hheight, displayDimensions, toNumber, htext, hwrite,
      AppState.emit]
  rw [hstate]
  refine ⟨rfl, rfl, by simp, ?_⟩
  rw [hrev]
  rfl

/-- The amended C1 at a picture of 1080 by 1920, picked in full screen mode
when the component has just mounted: the height kept and persisted is the
double `4644337115725824 * 2^-41`, that is `2112`. -/
theorem openGallery_commits_picked_asset_witness :
    ((openGallery sampleHost true emptyState).selectedImage = .string "file:///a.png"
      ∧ (openGallery sampleHost true emptyState).imageDimensions
          = .object [("width", .number (JSNumber.ofNat 1080)),
              ("height", .number ((JSNumber.ofNat 1920).mul JSNumber.onePointOne))]
      ∧ (openGallery sampleHost true emptyState).storage storageKey
          = some (sampleHost.jsonText (.obj [("uri", .str "file:///a.png"),
              ("dimensions", .obj [("width", .num (JSNumber.ofNat 1080)),
                ("height", .num ((JSNumber.ofNat 1920).mul JSNumber.onePointOne))])]))
      ∧ (Json.obj [("uri", .str "file:///a.png"),
            ("dimensions", .obj [("width", .num (JSNumber.ofNat 1080)),
              ("height", .num ((JSNumber.ofNat 1920).mul JSNumber.onePointOne))])]).revive
          = .object (persistedRecord (openGallery sampleHost true emptyState).selectedImage
              (openGallery sampleHost true emptyState).imageDimensions))
    ∧ JSNumber.ofNat 1080 = .fin false 4749890231992320 (-42)
    ∧ (JSNumber.ofNat 1920).mul JSNumber.onePointOne = .fin false 4644337115725824 (-41)
    ∧ JSNumber.toRat (.fin false 4749890231992320 (-42)) = some 1080
    ∧ JSNumber.toRat (.fin false 4644337115725824 (-41)) = some 2112 :=
  ⟨openGallery_commits_picked_asset sampleHost true emptyState
      (.object [("granted", .bool true)]) (.bool true)
      (mkPicked [mkAsset "file:///a.png" (JSNumber.ofNat 1080) (JSNumber.ofNat 1920)])
      (.bool false) (mkAsset "file:///a.png" (JSNumber.ofNat 1080) (JSNumber.ofNat 1920)) []
      "file:///a.png" (JSNumber.ofNat 1080) (JSNumber.ofNat 1920)
      rfl rfl rfl rfl rfl rfl rfl rfl (by decide) rfl rfl (by decide) (by decide) (by decide)
      (by set_option maxRecDepth 4000 in decide) rfl,
    by decide,
    by set_option maxRecDepth 4000 in decide,
    by simp [JSNumber.toRat]; norm_num,
    by simp [JSNumber.toRat]; norm_num⟩

/-- C5. When the picker result has `canceled = true`, `openGallery`, in either
mode and from every state, only requests the permission and launches the
picker: `selectedImage`, `imageDimensions` and the storage are unchanged, no
storage write is attempted and no alert is shown, whatever else the result
holds. -/
theorem openGallery_canceled_changes_nothing (h : Host) (isFullScreen : Bool) (s : AppState)
    (permissionResult granted result : JSValue)
    (hperm : h.requestMediaLibraryPermissionsAsync = .ok permissionResult)
    (hgranted : getProp permissionResult "granted" = .ok granted)
    (hallowed : strictEqFalse granted = false)
    (hpick : h.launchImageLibraryAsync (pickerOptions h isFullScreen) = .ok result)
    (hcanceled : getProp result "canceled" = .ok (.bool true)) :
    (openGallery h isFullScreen s).selectedImage = s.selectedImage
    ∧ (openGallery h isFullScreen s).imageDimensions = s.imageDimensions
    ∧ (openGallery h isFullScreen s).storage = s.storage
    ∧ (openGallery h isFullScreen s).events
        = s.events ++ [.permissionRequest, .pickerLaunch (pickerOptions h isFullScreen)] := by
  have htrue : truthy (.bool true) = true := rfl
  simp [openGallery, openGalleryTry, hperm, hgranted, hallowed, hpick, handleResult,
    hcanceled, htrue, AppState.emit]

/-- C5 at a canceled picker, in default mode, over a stored picture. -/
theorem openGallery_canceled_changes_nothing_witness :
    (openGallery canceledHost false savedState).selectedImage = savedState.selectedImage
    ∧ (openGallery canceledHost false savedState).imageDimensions = savedState.imageDimensions
    ∧ (openGallery canceledHost false savedState).storage = savedState.storage
    ∧ (openGallery canceledHost false savedState).events
        = savedState.events
            ++ [.permissionRequest, .pickerLaunch (pickerOptions canceledHost false)] :=
  openGallery_canceled_changes_nothing canceledHost false savedState
    (.object [("granted", .bool true)]) (.bool true)
    (.object [("canceled", .bool true), ("assets", .null)])
    rfl rfl rfl rfl rfl

/-- C6. When the permission request answers `granted = false`, `openGallery`,
in either mode and from every state, shows the alert
`Permission to access the gallery is required!` and does nothing else: the
picker is not launched, no storage write is attempted, and `selectedImage`,
`imageDimensions` and the storage are unchanged. -/
theorem openGallery_denied_only_alerts (h : Host) (isFullScreen : Bool) (s : AppState)
    (permissionResult : JSValue)
    (hperm : h.requestMediaLibraryPermissionsAsync = .ok permissionResult)
    (hdenied : getProp permissionResult "granted" = .ok (.bool false)) :
    (openGallery h isFullScreen s).selectedImage = s.selectedImage
    ∧ (openGallery h isFullScreen s).imageDimensions = s.imageDimensions
    ∧ (openGallery h isFullScreen s).storage = s.storage
    ∧ (openGallery h isFullScreen s).events
        = s.events ++ [.permissionRequest,
            .alert "Permission to access the gallery is required!"] := by
  simp [openGallery, openGalleryTry, hperm, hdenied, strictEqFalse, AppState.emit]

/-- C6 at a denied permission, over a stored picture. -/
theorem openGallery_denied_only_alerts_witness :
    (openGallery deniedHost true savedState).selectedImage = savedState.selectedImage
    ∧ (openGallery deniedHost true savedState).imageDimensions = savedState.imageDimensions
    ∧ (openGallery deniedHost true savedState).storage = savedState.storage
    ∧ (openGallery deniedHost true savedState).events
        = savedState.events ++ [.permissionRequest,
            .alert "Permission to access the gallery is required!"] :=
  openGallery_denied_only_alerts deniedHost true savedState
    (.object [("granted", .bool false)]) rfl rfl

/-- C2, as stated, fails: when the storage write throws after a valid asset
was picked, the generic alert is shown but the in-memory state is the new one
(`selectedImage` was `null` and is now the picked `uri`). -/
theorem openGallery_write_failure_changes_memory :
    failingWriteHost.setItemError storageKey sampleText = some (.rejected "write failed")
    ∧ (AppState.mount fun _ => none).selectedImage = .null
    ∧ (openGallery failingWriteHost true (AppState.mount fun _ => none)).selectedImage
        = .string "file:///a.png"
    ∧ (openGallery failingWriteHost true (AppState.mount fun _ => none)).selectedImage
        ≠ (AppState.mount fun _ => none).selectedImage
    ∧ (openGallery failingWriteHost true (AppState.mount fun _ => none)).events
        = [.permissionRequest, .pickerLaunch (pickerOptions failingWriteHost true),
            .storageSet storageKey sampleText,
            .consoleLog "Error picking image:" (.rejected "write failed"),
            .alert "An unidentified error occurred. Please try again."] := by
  refine ⟨rfl, rfl, rfl, ?_, rfl⟩
  intro hne
  have hsel : (openGallery failingWriteHost true (AppState.mount fun _ => none)).selectedImage
      = .string "file:///a.png" := rfl
  rw [hsel] at hne
  cases hne

/-- C2, amended. An exception of the permission request or of the picker
invocation leaves `selectedImage`, `imageDimensions` and the storage as they
were, is logged, and is followed by the alert
`An unidentified error occurred. Please try again.`; an exception of the
storage write, after a valid asset was picked, is logged and followed by the
same alert, the storage is as it was, but `selectedImage` and
`imageDimensions` are already those of the picked asset. -/
theorem openGallery_exception_outcomes (h : Host) (isFullScreen : Bool) (s : AppState) :
    (∀ e, h.requestMediaLibraryPermissionsAsync = .error e →
      openGallery h isFullScreen s =
        { s with events := s.events ++ [.permissionRequest,
            .consoleLog "Error picking image:" e,
            .alert "An unidentified error occurred. Please try again."] })
    ∧ (∀ permissionResult granted e,
        h.requestMediaLibraryPermissionsAsync = .ok permissionResult →
        getProp permissionResult "granted" = .ok granted →
        strictEqFalse granted = false →
        h.launchImageLibraryAsync (pickerOptions h isFullScreen) = .error e →
        openGallery h isFullScreen s =
          { s with events := s.events ++ [.permissionRequest,
              .pickerLaunch (pickerOptions h isFullScreen),
              .consoleLog "Error picking image:" e,
              .alert "An unidentified error occurred. Please try again."] })
    ∧ (∀ permissionResult granted result canceled asset others uri w ht e,
        h.requestMediaLibraryPermissionsAsync = .ok permissionResult →
        getProp permissionResult "granted" = .ok granted →
        strictEqFalse granted = false →
        h.launchImageLibraryAsync (pickerOptions h isFullScreen) = .ok result →
        getProp result "canceled" = .ok canceled →
        truthy canceled = false →
        getProp result "assets" = .ok (.array (asset :: others)) →
        getProp asset "uri" = .ok (.string uri) →
        jsTrim uri ≠ "" →
        getProp asset "width" = .ok (.number w) →
        getProp asset "height" = .ok (.number ht) →
        h.setItemError storageKey
          (jsonStringifyObject h (persistedRecord (.string uri)
            (.object [("width", .number w),
              ("height", .number (ht.mul JSNumber.onePointOne))]))) = some e →
        openGallery h isFullScreen s =
          { selectedImage := .string uri
            imageDimensions :=
              .object [("width", .number w), ("height", .number (ht.mul JSNumber.onePointOne))]
            storage := s.storage
            events := s.events ++ [.permissionRequest,
              .pickerLaunch (pickerOptions h isFullScreen),
              .storageSet storageKey
                (jsonStringifyObject h (persistedRecord (.string uri)
                  (.object [("width", .number w),
                    ("height", .number (ht.mul JSNumber.onePointOne))]))),
              .consoleLog "Error picking image:" e,
              .alert "An unidentified error occurred. Please try again."] }) := by
  refine ⟨?_, ?_, ?_⟩
  · intro e hperm
    simp [openGallery, openGalleryTry, hperm, AppState.emit]
  · intro permissionResult granted e hperm hgranted hallowed hpick
    simp [openGallery, openGalleryTry, hperm, hgranted, hallowed, hpick, AppState.emit]
  · intro permissionResult granted result canceled asset others uri w ht e hperm hgranted
      hallowed hpick hcanceled hnot hassets huri hblank hwidth hheight hwrite
    have hasset : truthy asset = true := truthy_of_getProp_string asset "uri" uri huri
    have hu : truthy (.string uri) = true := truthy_of_jsTrim_ne uri hblank
    have harr : truthy (.array (asset :: others)) = true := rfl
    simp [openGallery, openGalleryTry, hperm, hgranted, hallowed, hpick, handleResult,
      hcanceled, hnot, hassets, harr, getFirst, handleAsset, hasset, huri, hu, callTrim,
      hblank, commitAsset, hwidth, hheight, displayDimensions, toNumber, hwrite, AppState.emit]

/-- The amended C2 at three hosts: the permission request throws, the picker
throws, and the storage rejects the write of a picked picture of 1080 by 1920. -/
theorem openGallery_exception_outcomes_witness :
    openGallery permissionThrowsHost true savedState =
      { savedState with events := savedState.events ++ [.permissionRequest,
          .consoleLog "Error picking image:" (.rejected "permission service down"),
          .alert "An unidentified error occurred. Please try again."] }
    ∧ openGallery pickerThrowsHost false savedState =
      { savedState with events := savedState.events ++ [.permissionRequest,
          .pickerLaunch (pickerOptions pickerThrowsHost false),
          .consoleLog "Error picking image:" (.rejected "picker crashed"),
          .alert "An unidentified error occurred. Please try again."] }
    ∧ openGallery failingWriteHost true (AppState.mount fun _ => none) =
      { selectedImage := .string "file:///a.png"
        imageDimensions :=
          .object [("width", .number (JSNumber.ofNat 1080)),
            ("height", .number ((JSNumber.ofNat 1920).mul JSNumber.onePointOne))]
        storage := fun _ => none
        events := [] ++ [.permissionRequest,
          .pickerLaunch (pickerOptions failingWriteHost true),
          .storageSet storageKey
            (jsonStringifyObject failingWriteHost (persistedRecord (.string "file:///a.png")
              (.object [("width", .number (JSNumber.ofNat 1080)),
                ("height", .number ((JSNumber.ofNat 1920).mul JSNumber.onePointOne))]))),
          .consoleLog "Error picking image:" (.rejected "write failed"),
          .alert "An unidentified error occurred. Please try again."] } :=
  ⟨(openGallery_exception_outcomes permissionThrowsHost true savedState).1
      (.rejected "permission service down") rfl,
    (openGallery_exception_outcomes pickerThrowsHost false savedState).2.1
      (.object [("granted", .bool true)]) (.bool true) (.rejected "picker crashed")
      rfl rfl rfl rfl,
    (openGallery_exception_outcomes failingWriteHost true (AppState.mount fun _ => none)).2.2
      (.object [("granted", .bool true)]) (.bool true)
      (mkPicked [mkAsset "file:///a.png" (JSNumber.ofNat 1080) (JSNumber.ofNat 1920)])
      (.bool false) (mkAsset "file:///a.png" (JSNumber.ofNat 1080) (JSNumber.ofNat 1920)) []
      "file:///a.png" (JSNumber.ofNat 1080) (JSNumber.ofNat 1920) (.rejected "write failed")
      rfl rfl rfl rfl rfl rfl rfl rfl (by decide) rfl rfl rfl⟩

/-- C7, as stated, fails: an asset whose `uri` is three spaces and a result
without an asset are both rejected, but with two different alerts. -/
theorem openGallery_blank_uri_alert_differs :
    (openGallery blankUriHost true savedState).events
      = [.permissionRequest, .pickerLaunch (pickerOptions blankUriHost true),
          .alert "Image URI is empty. Please try again."]
    ∧ (openGallery noAssetHost true savedState).events
      = [.permissionRequest, .pickerLaunch (pickerOptions noAssetHost true),
          .alert "Image format not valid. Please try again."]
    ∧ pickerOptions blankUriHost true = pickerOptions noAssetHost true
    ∧ (openGallery blankUriHost true savedState).events
      ≠ (openGallery noAssetHost true savedState).events := by
  have hblank : (openGallery blankUriHost true savedState).events
      = [.permissionRequest, .pickerLaunch (pickerOptions blankUriHost true),
          .alert "Image URI is empty. Please try again."] := by
    simp [openGallery, openGalleryTry, blankUriHost, hostAnswering, getProp, lookupProp,
      strictEqFalse, handleResult, mkPicked, mkAsset, truthy, getFirst, handleAsset, callTrim,
      jsTrim, isJSWhitespace, AppState.emit, savedState]
  have hnone : (openGallery noAssetHost true savedState).events
      = [.permissionRequest, .pickerLaunch (pickerOptions noAssetHost true),
          .alert "Image format not valid. Please try again."] := by
    simp [openGallery, openGalleryTry, noAssetHost, hostAnswering, getProp, lookupProp,
      strictEqFalse, handleResult, mkPicked, truthy, getFirst, handleAsset, AppState.emit,
      savedState]
  refine ⟨hblank, hnone, rfl, ?_⟩
  rw [hblank, hnone]
  decide

/-- C7, amended. A non-canceled picker result whose first asset has a
non-empty `uri` made of whitespace only, and one whose `assets` is missing or
empty, both leave `selectedImage`, `imageDimensions` and the storage unchanged
and attempt no storage write, and each shows one alert: the first
`Image URI is empty. Please try again.`, the second
`Image format not valid. Please try again.`. -/
theorem openGallery_rejects_blank_and_missing (h : Host) (isFullScreen : Bool) (s : AppState)
    (permissionResult granted result canceled : JSValue)
    (hperm : h.requestMediaLibraryPermissionsAsync = .ok permissionResult)
    (hgranted : getProp permissionResult "granted" = .ok granted)
    (hallowed : strictEqFalse granted = false)
    (hpick : h.launchImageLibraryAsync (pickerOptions h isFullScreen) = .ok result)
    (hcanceled : getProp result "canceled" = .ok canceled)
    (hnot : truthy canceled = false) :
    (∀ asset others uri,
      getProp result "assets" = .ok (.array (asset :: others)) →
      getProp asset "uri" = .ok (.string uri) →
      uri ≠ "" → (∀ c ∈ uri.data, isJSWhitespace c = true) →
      openGallery h isFullScreen s =
        { s with events := s.events ++ [.permissionRequest,
            .pickerLaunch (pickerOptions h isFullScreen),
            .alert "Image URI is empty. Please try again."] })
    ∧ ((getProp result "assets" = .ok .undefined ∨ getProp result "assets" = .ok (.array [])) →
      openGallery h isFullScreen s =
        { s with events := s.events ++ [.permissionRequest,
            .pickerLaunch (pickerOptions h isFullScreen),
            .alert "Image format not valid. Please try again."] }) := by
  refine ⟨?_, ?_⟩
  · intro asset others uri hassets huri hne hws
    have hasset : truthy asset = true := truthy_of_getProp_string asset "uri" uri huri
    have hu : truthy (.string uri) = true := by simp [truthy, hne]
    have harr : truthy (.array (asset :: others)) = true := rfl
    have htrim : jsTrim uri = "" := jsTrim_of_whitespace uri hws
    simp [openGallery, openGalleryTry, hperm, hgranted, hallowed, hpick, handleResult,
      hcanceled, hnot, hassets, harr, getFirst, handleAsset, hasset, huri, hu, callTrim,
      htrim, AppState.emit]
  · intro hassets
    have hundef : truthy .undefined = false := rfl
    have harr : truthy (.array []) = true := rfl
    rcases hassets with hassets | hassets
    · simp [openGallery, openGalleryTry, hperm, hgranted, hallowed, hpick, handleResult,
        hcanceled, hnot, hassets, hundef, handleAsset, AppState.emit]
    · simp [openGallery, openGalleryTry, hperm, hgranted, hallowed, hpick, handleResult,
        hcanceled, hnot, hassets, harr, hundef, getFirst, handleAsset, AppState.emit]

/-- The amended C7 at an asset whose `uri` is three spaces and at an empty
list of assets. -/
theorem openGallery_rejects_blank_and_missing_witness :
    openGallery blankUriHost true savedState =
      { savedState with events := savedState.events ++ [.permissionRequest,
          .pickerLaunch (pickerOptions blankUriHost true),
          .alert "Image URI is empty. Please try again."] }
    ∧ openGallery noAssetHost true savedState =
      { savedState with events := savedState.events ++ [.permissionRequest,
          .pickerLaunch (pickerOptions noAssetHost true),
          .alert "Image format not valid. Please try again."] } :=
  ⟨(openGallery_rejects_blank_and_missing blankUriHost true savedState
      (.object [("granted", .bool true)]) (.bool true)
      (mkPicked [mkAsset "   " (JSNumber.ofNat 1080) (JSNumber.ofNat 1920)]) (.bool false)
      rfl rfl rfl rfl rfl rfl).1
      (mkAsset "   " (JSNumber.ofNat 1080) (JSNumber.ofNat 1920)) [] "   "
      rfl rfl (by decide) (by decide),
    (openGallery_rejects_blank_and_missing noAssetHost true savedState
      (.object [("granted", .bool true)]) (.bool true) (mkPicked []) (.bool false)
      rfl rfl rfl rfl rfl rfl).2 (Or.inr rfl)⟩

/-! ## Display geometry -/

/-- The literal `1.1` is the double `4953959590107546 * 2^-52`. -/
theorem onePointOne_eq : JSNumber.onePointOne = .fin false 4953959590107546 (-52) := by
  decide

/-- C8. When `imageDimensions` is an object with numeric `width` and `height`
(whatever their sign), `calculateAspectRatio` returns
`width = screenWidth` and `height = screenWidth / (width / height)`, the same
for every `screenHeight`; for dimensions 1080 by 1920 and a window of 400 by
800 the result is `400` by the double `6254999482459022 * 2^-43`, which is
within `2^-44` of `6400/9` (711.11...). -/
theorem calculateAspectRatio_scales_to_width :
    (∀ (h : Host) (s : AppState) (props : List (String × JSValue)) (w ht : JSNumber),
      s.imageDimensions = .object props →
      getProp (.object props) "width" = .ok (.number w) →
      getProp (.object props) "height" = .ok (.number ht) →
      calculateAspectRatio h s
          = .ok { width := h.screenWidth, height := h.screenWidth.div (w.div ht) }
      ∧ ∀ screenHeight,
          calculateAspectRatio { h with screenHeight := screenHeight } s
            = calculateAspectRatio h s)
    ∧ calculateAspectRatio sampleHost portraitState
        = .ok { width := JSNumber.ofNat 400, height := .fin false 6254999482459022 (-43) }
    ∧ JSNumber.toRat (.fin false 6254999482459022 (-43)) = some (6254999482459022 / 2 ^ 43)
    ∧ |(6254999482459022 / 2 ^ 43 : ℚ) - 6400 / 9| ≤ 1 / 2 ^ 44 := by
  refine ⟨?_, ?_, ?_, ?_⟩
  · intro h s props w ht hdims hwidth hheight
    have htruthy : truthy (.object props) = true := rfl
    constructor
    · simp [calculateAspectRatio, hdims, htruthy, hwidth, hheight, toNumber]
    · intro screenHeight
      simp [calculateAspectRatio, hdims, htruthy, hwidth, hheight, toNumber]
  · have hdiv : (JSNumber.ofNat 400).div ((JSNumber.ofNat 1080).div (JSNumber.ofNat 1920))
        = .fin false 6254999482459022 (-43) := by decide
    simp [calculateAspectRatio, portraitState, emptyState, AppState.mount, truthy, getProp,
      lookupProp, toNumber, sampleHost, hostAnswering, hdiv]
  · simp [JSNumber.toRat]
    norm_num
  · rw [abs_le]
    constructor <;> norm_num

/-- C8 at dimensions 1080 by 1920 in a window of 400 by 800. -/
theorem calculateAspectRatio_scales_to_width_witness :
    calculateAspectRatio sampleHost portraitState
        = .ok { width := sampleHost.screenWidth
                height := sampleHost.screenWidth.div
                  ((JSNumber.ofNat 1080).div (JSNumber.ofNat 1920)) }
    ∧ ∀ screenHeight,
        calculateAspectRatio { sampleHost with screenHeight := screenHeight } portraitState
          = calculateAspectRatio sampleHost portraitState :=
  calculateAspectRatio_scales_to_width.1 sampleHost portraitState
    [("width", .number (JSNumber.ofNat 1080)), ("height", .number (JSNumber.ofNat 1920))]
    (JSNumber.ofNat 1080) (JSNumber.ofNat 1920) rfl rfl rfl

/-- C9, as stated, fails: in a window of 400 by 800 and without dimensions the
height is the double `7740561859543041 * 2^-43` (880.0000000000001), one unit
in the last place above `880`, which is `7740561859543040 * 2^-43`. -/
theorem calculateAspectRatio_default_height_not_880 :
    emptyState.imageDimensions = .null
    ∧ sampleHost.screenWidth = JSNumber.ofNat 400
    ∧ sampleHost.screenHeight = JSNumber.ofNat 800
    ∧ calculateAspectRatio sampleHost emptyState
        = .ok { width := JSNumber.ofNat 400, height := .fin false 7740561859543041 (-43) }
    ∧ JSNumber.ofNat 880 = .fin false 7740561859543040 (-43)
    ∧ calculateAspectRatio sampleHost emptyState
        ≠ .ok { width := JSNumber.ofNat 400, height := JSNumber.ofNat 880 } := by
  have hmul : (JSNumber.ofNat 800).mul JSNumber.onePointOne
      = .fin false 7740561859543041 (-43) := by
    set_option maxRecDepth 4000 in decide
  have h880 : JSNumber.ofNat 880 = .fin false 7740561859543040 (-43) := by decide
  have hcalc : calculateAspectRatio sampleHost emptyState
      = .ok { width := JSNumber.ofNat 400, height := .fin false 7740561859543041 (-43) } := by
    simp [calculateAspectRatio, emptyState, AppState.mount, truthy, sampleHost, hostAnswering,
      hmul]
  refine ⟨rfl, rfl, rfl, hcalc, h880, ?_⟩
  rw [hcalc, h880]
  simp

/-- C9, amended. When `imageDimensions` is not set (it is falsy),
`calculateAspectRatio` returns `{ width: screenWidth, height: screenHeight * 1.1 }`
in binary64 arithmetic; for a window of 400 by 800 the result is `400` by the
double `7740561859543041 * 2^-43`, that is `880 + 2^-43` (880.0000000000001). -/
theorem calculateAspectRatio_default (h : Host) (s : AppState)
    (hunset : truthy s.imageDimensions = false) :
    calculateAspectRatio h s
      = .ok { width := h.screenWidth, height := h.screenHeight.mul JSNumber.onePointOne }
    ∧ (h.screenWidth = JSNumber.ofNat 400 → h.screenHeight = JSNumber.ofNat 800 →
        calculateAspectRatio h s
          = .ok { width := JSNumber.ofNat 400, height := .fin false 7740561859543041 (-43) })
    ∧ JSNumber.toRat (.fin false 7740561859543041 (-43)) = some (880 + 1 / 2 ^ 43) := by
  have hmul : (JSNumber.ofNat 800).mul JSNumber.onePointOne
      = .fin false 7740561859543041 (-43) := by
    set_option maxRecDepth 4000 in decide
  refine ⟨?_, ?_, ?_⟩
  · simp [calculateAspectRatio, hunset]
  · intro hwidth hheight
    simp [calculateAspectRatio, hunset, hwidth, hheight, hmul]
  · simp [JSNumber.toRat]
    norm_num

/-- The amended C9 in the state in which the component mounts, in a window of
400 by 800. -/
theorem calculateAspectRatio_default_witness :
    calculateAspectRatio sampleHost emptyState
      = .ok { width := sampleHost.screenWidth
              height := sampleHost.screenHeight.mul JSNumber.onePointOne }
    ∧ calculateAspectRatio sampleHost emptyState
        = .ok { width := JSNumber.ofNat 400, height := .fin false 7740561859543041 (-43) }
    ∧ JSNumber.toRat (.fin false 7740561859543041 (-43)) = some (880 + 1 / 2 ^ 43) :=
  ⟨(calculateAspectRatio_default sampleHost emptyState rfl).1,
    (calculateAspectRatio_default sampleHost emptyState rfl).2.1 rfl rfl,
    (calculateAspectRatio_default sampleHost emptyState rfl).2.2⟩

/-- C10, as stated, fails: for dimensions of 1080 by 0 in a window of 400 by
800 no error is signalled; the ratio is `Infinity` and the geometry returned
has the height `0`. -/
theorem calculateAspectRatio_zero_height_returns :
    zeroHeightState.imageDimensions
      = .object [("width", .number (JSNumber.ofNat 1080)), ("height", .number (JSNumber.ofNat 0))]
    ∧ JSNumber.ofNat 0 = .fin false 0 (-1074)
    ∧ (JSNumber.ofNat 1080).div (JSNumber.ofNat 0) = .inf false
    ∧ calculateAspectRatio sampleHost zeroHeightState
        = .ok { width := JSNumber.ofNat 400, height := .fin false 0 (-1074) } := by
  have hratio : (JSNumber.ofNat 1080).div (JSNumber.ofNat 0) = .inf false := by decide
  have hdiv : (JSNumber.ofNat 400).div (.inf false) = .fin false 0 (-1074) := by decide
  refine ⟨rfl, by decide, hratio, ?_⟩
  simp [calculateAspectRatio, zeroHeightState, emptyState, AppState.mount, truthy, getProp,
    lookupProp, toNumber, sampleHost, hostAnswering, hratio, hdiv]

/-- C10, amended. When `imageDimensions` is an object whose `height` is a
zero and whose `width` is a number, `calculateAspectRatio` signals no error:
it returns `width = screenWidth` and `height = screenWidth / (width / height)`;
for a positive `width` and a finite `screenWidth` the ratio is an infinity and
the height returned is a zero. -/
theorem calculateAspectRatio_zero_height (h : Host) (s : AppState)
    (props : List (String × JSValue)) (w z : JSNumber)
    (hdims : s.imageDimensions = .object props)
    (hwidth : getProp (.object props) "width" = .ok (.number w))
    (hheight : getProp (.object props) "height" = .ok (.number z))
    (hzero : z.isZero = true) :
    calculateAspectRatio h s
      = .ok { width := h.screenWidth, height := h.screenWidth.div (w.div z) }
    ∧ (w.isPositive = true → h.screenWidth.isFinite = true →
        (∃ neg, w.div z = .inf neg) ∧ (h.screenWidth.div (w.div z)).isZero = true) := by
  have htruthy : truthy (.object props) = true := rfl
  refine ⟨?_, ?_⟩
  · simp [calculateAspectRatio, hdims, htruthy, hwidth, hheight, toNumber]
  · intro hpos hfin
    have hratio : ∃ neg, w.div z = .inf neg := by
      cases z with
      | nan => simp [JSNumber.isZero] at hzero
      | inf t => simp [JSNumber.isZero] at hzero
      | fin t n f =>
        cases n with
        | succ n => simp [JSNumber.isZero] at hzero
        | zero =>
          cases w with
          | nan => simp [JSNumber.isPositive] at hpos
          | inf r => exact ⟨xor r t, by simp [JSNumber.div]⟩
          | fin r m e =>
            cases m with
            | zero => cases r <;> simp [JSNumber.isPositive] at hpos
            | succ m => exact ⟨xor r t, by simp [JSNumber.div]⟩
    refine ⟨hratio, ?_⟩
    obtain ⟨neg, hneg⟩ := hratio
    rw [hneg]
    cases hsw : h.screenWidth with
    | nan => simp [hsw, JSNumber.isFinite] at hfin
    | inf r => simp [hsw, JSNumber.isFinite] at hfin
    | fin r m e => simp [JSNumber.div, JSNumber.isZero]

/-- The amended C10 at dimensions of 1080 by 0 in a window of 400 by 800. -/
theorem calculateAspectRatio_zero_height_witness :
    calculateAspectRatio sampleHost zeroHeightState
      = .ok { width := sampleHost.screenWidth
              height := sampleHost.screenWidth.div
                ((JSNumber.ofNat 1080).div (JSNumber.ofNat 0)) }
    ∧ (∃ neg, (JSNumber.ofNat 1080).div (JSNumber.ofNat 0) = .inf neg)
    ∧ (sampleHost.screenWidth.div
        ((JSNumber.ofNat 1080).div (JSNumber.ofNat 0))).isZero = true :=
  ⟨(calculateAspectRatio_zero_height sampleHost zeroHeightState
      [("width", .number (JSNumber.ofNat 1080)), ("height", .number (JSNumber.ofNat 0))]
      (JSNumber.ofNat 1080) (JSNumber.ofNat 0) rfl rfl rfl (by decide)).1,
    (calculateAspectRatio_zero_height sampleHost zeroHeightState
      [("width", .number (JSNumber.ofNat 1080)), ("height", .number (JSNumber.ofNat 0))]
      (JSNumber.ofNat 1080) (JSNumber.ofNat 0) rfl rfl rfl (by decide)).2
      (by decide) (by decide)⟩

/-! ## Restoring the image -/

/-- C3, as stated, fails: a picked asset of width 1080 and height
`Number.MAX_VALUE` is valid (non-blank `uri`, positive width and height) and
is written successfully, but `height*1.1` is `Infinity`, which JSON writes as
`null`: the restore sets a height of `null`, not the `Infinity` that
`openGallery` left in memory. -/
theorem loadImage_after_overflow_differs :
    maxValue.isPositive = true
    ∧ (JSNumber.ofNat 1080).isPositive = true
    ∧ (openGallery overflowHost true emptyState).imageDimensions
        = .object [("width", .number (JSNumber.ofNat 1080)), ("height", .number (.inf false))]
    ∧ (openGallery overflowHost true emptyState).storage storageKey = some overflowText
    ∧ overflowHost.jsonRead overflowText
        = some (.obj [("uri", .str "file:///a.png"),
            ("dimensions", .obj [("width", .num (JSNumber.ofNat 1080)), ("height", .null)])])
    ∧ (loadImage overflowHost
          (AppState.mount (openGallery overflowHost true emptyState).storage)).imageDimensions
        = .object [("width", .number (JSNumber.ofNat 1080)), ("height", .null)]
    ∧ (loadImage overflowHost
          (AppState.mount (openGallery overflowHost true emptyState).storage)).imageDimensions
        ≠ (openGallery overflowHost true emptyState).imageDimensions := by
  have hmul : maxValue.mul JSNumber.onePointOne = .inf false := by
    set_option maxRecDepth 4000 in decide
  have h1080 : JSNumber.ofNat 1080 = .fin false 4749890231992320 (-42) := by decide
  have hsaved : openGallery overflowHost true emptyState =
      { selectedImage := .string "file:///a.png"
        imageDimensions :=
          .object [("width", .number (JSNumber.ofNat 1080)), ("height", .number (.inf false))]
        storage := fun k => if k = storageKey then some overflowText else none
        events := [.permissionRequest, .pickerLaunch (pickerOptions overflowHost true),
          .storageSet storageKey overflowText] } := by
    have hblank : jsTrim "file:///a.png" ≠ "" := by decide
    simp [openGallery, openGalleryTry, overflowHost, hostAnswering, getProp, lookupProp,
      strictEqFalse, handleResult, mkPicked, mkAsset, truthy, getFirst, handleAsset, callTrim,
      hblank, commitAsset, displayDimensions, toNumber, hmul, jsonStringifyObject,
      AppState.emit, emptyState, AppState.mount]
  have hdoc : overflowHost.jsonRead overflowText
      = some (.obj [("uri", .str "file:///a.png"),
          ("dimensions", .obj [("width", .num (JSNumber.ofNat 1080)), ("height", .null)])]) := by
    simp [overflowHost, hostAnswering, recordDoc, hmul, h1080, ofNumber_fin_false, ofNumber_inf]
  have hne : overflowText ≠ "" := by decide
  have hrestored : (loadImage overflowHost
        (AppState.mount (openGallery overflowHost true emptyState).storage)).imageDimensions
      = .object [("width", .number (JSNumber.ofNat 1080)), ("height", .null)] := by
    rw [hsaved]
    simp [loadImage, loadImageTry, AppState.mount, AppState.emit, jsonParse, hdoc, hne,
      Json.revive, reviveMembers, setProp, getProp, lookupProp]
    simp [overflowHost, hostAnswering]
  refine ⟨by decide, by decide, ?_, ?_, hdoc, hrestored, ?_⟩
  · rw [hsaved]
  · rw [hsaved]
    simp
  · rw [hrestored, hsaved]
    simp

/-- C3, amended. For a picked asset with a non-blank `uri`, a positive finite
`width` and a positive `height` whose product `height*1.1` is finite, if the
storage write succeeds, then a restore (`loadImage`) in a freshly mounted
component over the resulting storage, with a JSON syntax that reads back the
text it wrote for this record, sets `selectedImage` and `imageDimensions` to
exactly what `openGallery` left in memory, and only reads the storage: the
picker is not launched. -/
theorem loadImage_after_openGallery (h : Host) (isFullScreen : Bool) (s : AppState)
    (permissionResult result canceled asset : JSValue) (others : List JSValue)
    (uri : String) (w ht : JSNumber)
    (hperm : h.requestMediaLibraryPermissionsAsync = .ok permissionResult)
    (hgranted : getProp permissionResult "granted" = .ok (.bool true))
    (hpick : h.launchImageLibraryAsync (pickerOptions h isFullScreen) = .ok result)
    (hcanceled : getProp result "canceled" = .ok canceled)
    (hnot : truthy canceled = false)
    (hassets : getProp result "assets" = .ok (.array (asset :: others)))
    (huri : getProp asset "uri" = .ok (.string uri))
    (hblank : jsTrim uri ≠ "")
    (hwidth : getProp asset "width" = .ok (.number w))
    (hheight : getProp asset "height" = .ok (.number ht))
    (hwpos : w.isPositive = true) (hwfin : w.isFinite = true)
    (hhpos : ht.isPositive = true)
    (hhfin : (ht.mul JSNumber.onePointOne).isFinite = true)
    (hwrite : h.setItemError storageKey
      (h.jsonText (recordDoc uri w (ht.mul JSNumber.onePointOne))) = none)
    (hget : h.getItemError storageKey = none)
    (hnonempty : h.jsonText (recordDoc uri w (ht.mul JSNumber.onePointOne)) ≠ "")
    (hread : h.jsonRead (h.jsonText (recordDoc uri w (ht.mul JSNumber.onePointOne)))
      = some (recordDoc uri w (ht.mul JSNumber.onePointOne))) :
    (loadImage h (AppState.mount (openGallery h isFullScreen s).storage)).selectedImage
      = (openGallery h isFullScreen s).selectedImage
    ∧ (loadImage h (AppState.mount (openGallery h isFullScreen s).storage)).imageDimensions
      = (openGallery h isFullScreen s).imageDimensions
    ∧ (loadImage h (AppState.mount (openGallery h isFullScreen s).storage)).events
      = [.storageGet storageKey] := by
  have hasset : truthy asset = true := truthy_of_getProp_string asset "uri" uri huri
  have hu : truthy (.string uri) = true := truthy_of_jsTrim_ne uri hblank
  have harr : truthy (.array (asset :: others)) = true := rfl
  have htext := jsonStringifyObject_record h uri w (ht.mul JSNumber.onePointOne)
  have hsaved : openGallery h isFullScreen s =
      { selectedImage := .string uri
        imageDimensions :=
          .object [("width", .number w), ("height", .number (ht.mul JSNumber.onePointOne))]
        storage := fun k =>
          if k = storageKey then
            some (h.jsonText (recordDoc uri w (ht.mul JSNumber.onePointOne)))
          else s.storage k
        events := s.events ++ [.permissionRequest, .pickerLaunch (pickerOptions h isFullScreen),
          .storageSet storageKey
            (h.jsonText (recordDoc uri w (ht.mul JSNumber.onePointOne)))] } := by
    simp [openGallery, openGalleryTry, hperm, hgranted, strictEqFalse, hpick, handleResult,
      hcanceled, hnot, hassets, harr, getFirst, handleAsset, hasset, huri, hu, callTrim,
      hblank, commitAsset, hwidth, hheight, displayDimensions, toNumber, htext, hwrite,
      AppState.emit]
  have hw : Json.ofNumber w = .num w := ofNumber_of_positive_finite w hwpos hwfin
  obtain ⟨m, e, hprod⟩ := mul_onePointOne_of_positive ht hhpos hhfin
  have hht : Json.ofNumber (ht.mul JSNumber.onePointOne) = .num (ht.mul JSNumber.onePointOne) := by
    rw [hprod]
    exact ofNumber_fin_false m e
  have hrev := revive_recordDoc uri w (ht.mul JSNumber.onePointOne) hw hht
  rw [hsaved]
  simp [loadImage, loadImageTry, AppState.mount, AppState.emit, hget, hnonempty, jsonParse,
    hread, hrev, getProp, lookupProp]

/-- The amended C3 at a picture of 1080 by 1920. -/
theorem loadImage_after_openGallery_witness :
    (loadImage sampleHost
        (AppState.mount (openGallery sampleHost true emptyState).storage)).selectedImage
      = (openGallery sampleHost true emptyState).selectedImage
    ∧ (loadImage sampleHost
        (AppState.mount (openGallery sampleHost true emptyState).storage)).imageDimensions
      = (openGallery sampleHost true emptyState).imageDimensions
    ∧ (loadImage sampleHost
        (AppState.mount (openGallery sampleHost true emptyState).storage)).events
      = [.storageGet storageKey] :=
  loadImage_after_openGallery sampleHost true emptyState
    (.object [("granted", .bool true)])
    (mkPicked [mkAsset "file:///a.png" (JSNumber.ofNat 1080) (JSNumber.ofNat 1920)])
    (.bool false) (mkAsset "file:///a.png" (JSNumber.ofNat 1080) (JSNumber.ofNat 1920)) []
    "file:///a.png" (JSNumber.ofNat 1080) (JSNumber.ofNat 1920)
    rfl rfl rfl rfl rfl rfl rfl (by decide) rfl rfl (by decide) (by decide) (by decide)
    (by set_option maxRecDepth 4000 in decide) rfl rfl (by decide)
    (by simp [sampleHost, hostAnswering])

/-- C4, as stated, fails: the empty string is a stored text that does not
parse, but `loadImage` treats it like an absent record and launches the
picker (and here the picked picture ends up in the state). -/
theorem loadImage_empty_string_launches_picker :
    emptyStringStored.storage storageKey = some ""
    ∧ sampleHost.jsonRead "" = none
    ∧ (loadImage sampleHost emptyStringStored).events
        = [.storageGet storageKey, .permissionRequest,
            .pickerLaunch (pickerOptions sampleHost true), .storageSet storageKey sampleText]
    ∧ Event.pickerLaunch (pickerOptions sampleHost true)
        ∈ (loadImage sampleHost emptyStringStored).events
    ∧ (loadImage sampleHost emptyStringStored).selectedImage = .string "file:///a.png" := by
  have hblank : jsTrim "file:///a.png" ≠ "" := by decide
  have hload : loadImage sampleHost emptyStringStored =
      { selectedImage := .string "file:///a.png"
        imageDimensions :=
          .object [("width", .number (JSNumber.ofNat 1080)),
            ("height", .number ((JSNumber.ofNat 1920).mul JSNumber.onePointOne))]
        storage := fun k => if k = storageKey then some sampleText else
          if k = storageKey then some "" else none
        events := [.storageGet storageKey, .permissionRequest,
          .pickerLaunch (pickerOptions sampleHost true), .storageSet storageKey sampleText] } := by
    simp [loadImage, loadImageTry, emptyStringStored, AppState.mount, AppState.emit,
      openGallery, openGalleryTry, sampleHost, hostAnswering, getProp, lookupProp,
      strictEqFalse, handleResult, mkPicked, mkAsset, truthy, getFirst, handleAsset, callTrim,
      hblank, commitAsset, displayDimensions, toNumber, jsonStringifyObject]
  refine ⟨by simp [emptyStringStored, AppState.mount], ?_, ?_, ?_, ?_⟩
  · have hne : ¬ ("" = sampleText) := by decide
    simp [sampleHost, hostAnswering, hne]
  · rw [hload]
  · rw [hload]
    simp
  · rw [hload]

/-- C4, amended. When the read of the storage does not fail: for every stored
text that is not empty and on which `JSON.parse` throws, or which parses to
`null`, `loadImage` leaves `selectedImage`, `imageDimensions` and the storage
as they were (empty, when the component has just mounted), launches no picker
and shows no alert: it only logs the failure; whereas when nothing is stored,
or the stored text is the empty string, `loadImage` calls `openGallery` with
`isFullScreen = true`. -/
theorem loadImage_corrupt_versus_absent (h : Host) (s : AppState)
    (hget : h.getItemError storageKey = none) :
    (∀ text, s.storage storageKey = some text → text ≠ "" → h.jsonRead text = none →
      loadImage h s =
        { s with events := s.events ++ [.storageGet storageKey,
            .consoleLog "Failed to load the image:" .syntaxError] })
    ∧ (∀ text, s.storage storageKey = some text → text ≠ "" →
        h.jsonRead text = some .null →
      loadImage h s =
        { s with events := s.events ++ [.storageGet storageKey,
            .consoleLog "Failed to load the image:" .typeError] })
    ∧ ((s.storage storageKey = none ∨ s.storage storageKey = some "") →
      loadImage h s = openGallery h true (s.emit (.storageGet storageKey))) := by
  refine ⟨?_, ?_, ?_⟩
  · intro text hstored hne hread
    simp [loadImage, loadImageTry, hget, AppState.emit, hstored, hne, jsonParse, hread]
  · intro text hstored hne hread
    simp [loadImage, loadImageTry, hget, AppState.emit, hstored, hne, jsonParse, hread,
      Json.revive, getProp]
  · intro habsent
    rcases habsent with habsent | habsent
    · simp [loadImage, loadImageTry, hget, AppState.emit, habsent]
    · simp [loadImage, loadImageTry, hget, AppState.emit, habsent]

/-- The amended C4 at a stored text that is not JSON, and at an empty storage. -/
theorem loadImage_corrupt_versus_absent_witness :
    loadImage sampleHost corruptStored =
      { corruptStored with events := corruptStored.events ++ [.storageGet storageKey,
          .consoleLog "Failed to load the image:" .syntaxError] }
    ∧ loadImage sampleHost emptyState
        = openGallery sampleHost true (emptyState.emit (.storageGet storageKey)) :=
  ⟨(loadImage_corrupt_versus_absent sampleHost corruptStored rfl).1 "not json"
      (by simp [corruptStored, AppState.mount]) (by decide)
      (by
        have hne : ¬ ("not json" = sampleText) := by decide
        simp [sampleHost, hostAnswering, hne]),
    (loadImage_corrupt_versus_absent sampleHost emptyState rfl).2.2 (Or.inl rfl)⟩

end PictureApp
